import Mathlib

/-!
Verification development for the `tokens` Go package (chrisdinn/tokens), a
token-accounting estimator for OpenAI chat-completion requests and responses.

The repository contains two revisions of the counter:
* `src/counter.go` — embedded below in namespace `V1`
  (`CountRequestTokens`, `CountMessageTokens`, `CountRespTokens`,
  `formatArguments`, `stringifyObject`, `formatValue`);
* `src/unnamed/part_002` — embedded below in namespace `V2`
  (`CountRequestTokens` with `countToolChoice`, `CountMessageTokens`,
  `CountResponseTokens`, and its own `stringifyObject`/`formatValue`).
The schema renderer (`formatFunctionDefinitions`, `formatObjectProperties`,
`formatType`) and the tool-insertion logic of `CountRequestTokens` are
verbatim identical in the two files and are embedded once, outside the
namespaces.

Modelling conventions:
* The tiktoken tokenizer is an external collaborator; a `Counter` carries an
  arbitrary deterministic `countTokens : String → Nat` (only the length of
  the encoding is ever used by the source).
* `encoding/json`'s `json.Unmarshal` into `map[string]interface{}` is an
  external collaborator as well; it is passed to the counting functions as a
  parameter `jp : String → Option (List (String × Jval))` (`none` models a
  parse error).  A decoded Go `map[string]interface{}` is modelled as an
  association list whose list order records the incidental iteration order
  the Go runtime happened to choose for that run; two runs of the same
  program may present the same map with different list orders.
* Go numbers decoded from JSON are `float64`; a `Jval.num` carries the
  decimal text that Go's `fmt` verbs `%v` print for that `float64` value.
* Go strings are modelled as Lean `String`s; `fmt.Sprintf` calls are
  translated into explicit concatenations.
* `CountRequestTokens` takes a request by value, but `req.Messages` is a Go
  slice: the in-place write `req.Messages[i].Content = ...` is visible to the
  caller through the shared backing array, while the rebinding
  `req.Messages = append(...)` is not.  The embedding therefore returns the
  pair of the count and the caller-visible request after the call.
-/

/-- JSON values as produced by Go's `json.Unmarshal` into `interface{}`:
strings, `float64` numbers (carried as their `%v` decimal rendering),
booleans, `nil`, `[]interface{}` and `map[string]interface{}` (carried as an
association list in the incidental iteration order of that run). -/
inductive Jval where
  | str (s : String)
  | num (render : String)
  | bool (b : Bool)
  | null
  | arr (elems : List Jval)
  | obj (fields : List (String × Jval))
deriving Repr

/-- Go type assertion `v.(map[string]interface{})`. -/
def Jval.asObj? : Jval → Option (List (String × Jval))
  | .obj o => some o
  | _ => none

/-- Go type assertion `v.([]interface{})`. -/
def Jval.asArr? : Jval → Option (List Jval)
  | .arr a => some a
  | _ => none

/-- Go type assertion `v.(string)`. -/
def Jval.asStr? : Jval → Option String
  | .str s => some s
  | _ => none

/-- Go map lookup `m[key]` on the modelled `map[string]interface{}`. -/
def jlookup (o : List (String × Jval)) (key : String) : Option Jval :=
  (o.find? (fun kv => kv.1 == key)).map (fun kv => kv.2)

/-- Go `fmt` `%v` verb on a decoded JSON value (scalar cases; `fmt`'s
rendering of composite values is not exercised by any code path studied
here and is modelled as the empty string). -/
def goV : Jval → String
  | .str s => s
  | .num r => r
  | .bool b => if b then "true" else "false"
  | .null => "<nil>"
  | _ => ""

/-- Go `fmt` `%s` verb on a decoded JSON value: strings print raw, and
non-string scalars print fmt's `%!s(...)` error representation (composites
are not exercised by any code path studied here). -/
def goS : Jval → String
  | .str s => s
  | .num r => "%!s(float64=" ++ r ++ ")"
  | .bool b => "%!s(bool=" ++ (if b then "true" else "false") ++ ")"
  | _ => ""

/-- `openai.FunctionCall`: the function name and raw JSON arguments of a
tool call. -/
structure FunctionCall where
  name : String
  arguments : String
deriving Repr, DecidableEq

/-- `openai.ToolCall`.  `type` models `openai.ToolType`, a string type whose
constant `openai.ToolTypeFunction` is the string "function". -/
structure ToolCall where
  id : String
  type : String
  function : FunctionCall
deriving Repr, DecidableEq

/-- `openai.ChatCompletionMessage` (the fields the package reads). -/
structure ChatCompletionMessage where
  role : String
  content : String
  name : String := ""
  toolCalls : List ToolCall := []
deriving Repr, DecidableEq

/-- `openai.FunctionDefinition` (the fields the package reads).  The source
round-trips `Parameters` through `json.Marshal`/`json.Unmarshal` into a
`map[string]interface{}`; the embedding carries the decoded JSON value
directly. -/
structure FunctionDefinition where
  name : String
  description : String := ""
  parameters : Jval := .null

/-- `openai.Tool`. -/
structure Tool where
  type : String
  function : FunctionDefinition

/-- The dynamic value stored in `openai.ChatCompletionRequest.ToolChoice`
(typed `any` in Go): either an `openai.ToolChoice` structure, or some other
value such as the strings "auto"/"none" (`countToolChoice`'s default case). -/
inductive ToolChoiceVal where
  | toolChoice (type : String) (functionName : String)
  | other

/-- `openai.ChatCompletionRequest` (the fields the package reads);
`toolChoice = none` models a nil `ToolChoice`. -/
structure ChatCompletionRequest where
  messages : List ChatCompletionMessage
  tools : List Tool := []
  toolChoice : Option ToolChoiceVal := none

/-- One choice of an `openai.ChatCompletionResponse`. -/
structure ChatCompletionChoice where
  message : ChatCompletionMessage

/-- `openai.ChatCompletionResponse` (the fields the package reads). -/
structure ChatCompletionResponse where
  choices : List ChatCompletionChoice

/-- The `Counter` of counter.go: a model name plus the tiktoken tokenizer
for it, modelled as an arbitrary deterministic text-to-token-count
function (the source only ever uses `len(tokenizer.Encode(txt, nil, nil))`). -/
structure Counter where
  model : String
  countTokens : String → Nat

/-- `CountTokens` (counter.go line 30): the number of tokens in a string. -/
def Counter.CountTokens (c : Counter) (txt : String) : Nat :=
  c.countTokens txt

/-- counter.go line 36: per-request-message overhead. -/
def tokensPerReqMessage : Nat := 3

/-- counter.go line 37: fixed per-tool-call overhead. -/
def tokensPerToolCall : Nat := 4

/-- counter.go line 38: extra token charged with a message name. -/
def tokensPerName : Nat := 1

/-- counter.go line 39: correction applied when a request carries two or
more tool messages. -/
def tokensForMultiTool : Nat := 13

/-- The JSON-parse collaborator: `json.Unmarshal(data, &m)` for
`m : map[string]interface{}`, returning `none` on a parse error and
otherwise the decoded object with the iteration order of that run. -/
abbrev JParse := String → Option (List (String × Jval))

mutual
/-- Size of a decoded JSON value, used only to compute a fuel bound for the
schema renderer below. -/
def jsizeV : Jval → Nat
  | .str _ => 1
  | .num _ => 1
  | .bool _ => 1
  | .null => 1
  | .arr es => 1 + jsizeL es
  | .obj o => 1 + jsizeO o

/-- Size of a decoded JSON array's element list. -/
def jsizeL : List Jval → Nat
  | [] => 0
  | v :: vs => jsizeV v + jsizeL vs

/-- Size of a decoded JSON object's field list. -/
def jsizeO : List (String × Jval) → Nat
  | [] => 0
  | kv :: rest => 1 + jsizeV kv.2 + jsizeO rest
end

/-- Combined embedding of the mutually recursive pair
`formatType` (counter.go lines 268-316) and `formatObjectProperties`
(counter.go lines 225-266), identical in src/unnamed/part_002
(lines 268-316 and 225-266).  `isType = true` selects the `formatType`
body, `isType = false` the `formatObjectProperties` body.  The `fuel`
argument only bounds the recursion depth so that the definition is
structural (and hence kernel-computable); the wrappers below supply a
`sizeOf`-based fuel that strictly exceeds the recursion depth reachable
from their argument, so the 0-fuel branch is never taken.  Go builds the
`lines` slice of `formatObjectProperties` by appending, per property, an
optional `// description` line and one `key?:type,` line; that loop is
rendered as a concat-map. -/
def renderSchema : Nat → Bool → List (String × Jval) → Nat → String
  | 0, _, _, _ => ""
  | fuel + 1, true, props, indent =>
    match (jlookup props "type").bind Jval.asStr? with
    | none => ""
    | some typ =>
      if typ == "string" then
        match (jlookup props "enum").bind Jval.asArr? with
        | some enum =>
          String.intercalate " | " (enum.map (fun val => "\"" ++ goS val ++ "\""))
        | none => "string"
      else if typ == "array" then
        match (jlookup props "items").bind Jval.asObj? with
        | some items => renderSchema fuel true items indent ++ "[]"
        | none => "any[]"
      else if typ == "object" then
        match (jlookup props "properties").bind Jval.asObj? with
        | some properties =>
          "\x7b\n" ++ renderSchema fuel false properties (indent + 2) ++ "\n\x7d"
        | none => "\x7b\x7d"
      else if typ == "integer" || typ == "number" then
        match (jlookup props "enum").bind Jval.asArr? with
        | some enum => String.intercalate " | " (enum.map goV)
        | none => "number"
      else if typ == "boolean" then "boolean"
      else if typ == "null" then "null"
      else ""
  | fuel + 1, false, p, indent =>
    match (jlookup p "properties").bind Jval.asObj? with
    | none => ""
    | some properties =>
      let required := ((jlookup p "required").bind Jval.asArr?).getD []
      let requiredFields := required.filterMap Jval.asStr?
      let lines := (properties.map (fun kv =>
        match kv.2.asObj? with
        | none => []
        | some props =>
          let description := ((jlookup props "description").bind Jval.asStr?).getD ""
          let descLines := if description ≠ "" then ["// " ++ description] else []
          let question := if requiredFields.contains kv.1 then "" else "?"
          descLines ++
            [kv.1 ++ question ++ ":" ++ renderSchema fuel true props indent ++ ","])).flatten
      let indentSpaces := String.join (List.replicate indent " ")
      String.intercalate "\n" (lines.map (fun line => indentSpaces ++ line))

/-- `formatType` (counter.go lines 268-316): renders the TypeScript-like
type of one JSON-schema node. -/
def formatType (props : List (String × Jval)) (indent : Nat) : String :=
  renderSchema (2 * jsizeO props + 2) true props indent

/-- `formatObjectProperties` (counter.go lines 225-266): renders the
property list of a JSON-schema node, handling `required` fields. -/
def formatObjectProperties (p : List (String × Jval)) (indent : Nat) : String :=
  renderSchema (2 * jsizeO p + 2) false p indent

/-- `formatFunctionDefinitions` (counter.go lines 186-221, identical in
src/unnamed/part_002): renders the tool list as a TypeScript-style
namespace block. -/
def formatFunctionDefinitions (tools : List Tool) : String :=
  let lines := ["# Tools", "## functions", "namespace functions \x7b"]
  let lines := tools.foldl (fun lines tool =>
    let function := tool.function
    let lines :=
      if function.description ≠ "" then lines ++ ["// " ++ function.description]
      else lines
    let params := function.parameters.asObj?.getD []
    match (jlookup params "properties").bind Jval.asObj? with
    | some properties =>
      if properties.length > 0 then
        lines ++ ["type " ++ function.name ++ " = (_: \x7b",
                  formatObjectProperties params 0,
                  "\x7d) => any;"]
      else lines ++ ["type " ++ function.name ++ " = () => any;"]
    | none => lines ++ ["type " ++ function.name ++ " = () => any;"]) lines
  String.intercalate "\n" (lines ++ ["\x7d // namespace functions"])

/-- The tool-insertion scan of `CountRequestTokens` (counter.go lines 57-68,
identical in src/unnamed/part_002): walk the messages in order; at the first
message with role "system", append two newlines and the rendered tool block
to its content and stop.  Returns `none` when no system message exists. -/
def injectSystem (toolBlock : String) : List ChatCompletionMessage → Option (List ChatCompletionMessage)
  | [] => none
  | m :: rest =>
    if m.role = "system" then
      some ({ m with content := m.content ++ "\n\n" ++ toolBlock } :: rest)
    else (injectSystem toolBlock rest).map (fun rest2 => m :: rest2)

/-- The message list actually counted by `CountRequestTokens` (counter.go
lines 54-78, identical in src/unnamed/part_002): when tools are present, the
tool block is spliced into the first system message, or a fresh system
message carrying only the tool block is prepended when none exists. -/
def processedMessages (req : ChatCompletionRequest) : List ChatCompletionMessage :=
  if req.tools.length > 0 then
    match injectSystem (formatFunctionDefinitions req.tools) req.messages with
    | some msgs => msgs
    | none =>
      { role := "system", content := formatFunctionDefinitions req.tools } :: req.messages
  else req.messages

/-- The caller-visible message list after `CountRequestTokens` returns.  The
in-place write `req.Messages[i].Content = ...` (line 60) goes through the
slice's shared backing array and is seen by the caller; the prepending
`req.Messages = append(...)` (line 70) only rebinds the callee's local slice
header and is not. -/
def callerMessages (req : ChatCompletionRequest) : List ChatCompletionMessage :=
  if req.tools.length > 0 then
    match injectSystem (formatFunctionDefinitions req.tools) req.messages with
    | some msgs => msgs
    | none => req.messages
  else req.messages

namespace V1

/-- Loop body of `formatValue`'s `[]interface{}` case (counter.go lines
367-375): scalar strings and numbers print `%v` surrounded by double
quotes; every other element prints as an empty double-quoted string. -/
def formatElement : Jval → String
  | .str s => "\"" ++ s ++ "\""
  | .num r => "\"" ++ r ++ "\""
  | _ => "\"\""

/-- `formatValue` (counter.go lines 362-379).  Strings and numbers (Go's
switch lists `string` and all numeric types) print `%v` wrapped in double
quotes without any escaping; `[]interface{}` prints its elements likewise,
comma-joined inside brackets; everything else — including booleans, `nil`
and nested objects — falls to the default `""` (an empty double-quoted
string). -/
def formatValue : Jval → String
  | .str s => "\"" ++ s ++ "\""
  | .num r => "\"" ++ r ++ "\""
  | .arr elems => "[" ++ String.intercalate "," (elems.map formatElement) ++ "]"
  | _ => "\"\""

/-- `formatField` (counter.go lines 333-339). -/
def formatField (fieldName : String) (value : Jval) (useQuotes : Bool) : String :=
  let formattedValue := formatValue value
  if useQuotes then "\"" ++ fieldName ++ "\": " ++ formattedValue
  else fieldName ++ ":" ++ formattedValue

/-- `stringifyObject` (counter.go lines 342-359): a single-field object
short-circuits to `\x7b<field>\x7d` plus newline; otherwise all fields are
joined with ", " inside braces, again followed by a newline. -/
def stringifyObject (jsonObject : List (String × Jval)) (useQuotes : Bool) : String :=
  match jsonObject with
  | [kv] => "\x7b" ++ formatField kv.1 kv.2 useQuotes ++ "\x7d\n"
  | _ =>
    let properties := jsonObject.map (fun kv => formatField kv.1 kv.2 useQuotes)
    let lines := if properties.length > 0 then [String.intercalate ", " properties] else []
    "\x7b" ++ String.intercalate "\n" lines ++ "\x7d\n"

/-- `formatArguments` (counter.go lines 319-331): `none` when the raw
argument text fails to parse as a JSON object; an empty object renders as
`\x7b\x7d` plus newline; otherwise the unquoted-key rendering of the object. -/
def formatArguments (jp : JParse) (arguments : String) : Option String :=
  match jp arguments with
  | none => none
  | some jsonObject =>
    if jsonObject.length = 0 then some "\x7b\x7d\n"
    else some (stringifyObject jsonObject false)

/-- Per-tool-call contribution of the loop in `CountMessageTokens`
(counter.go lines 152-163): 4 tokens of overhead plus the tokens of the
call's type; for "function" calls additionally twice the tokens of the
function name, and — when the raw arguments parse — the tokens of their
unquoted-key rendering (`continue` skips only the argument text on a parse
error). -/
def toolCallTokens (c : Counter) (jp : JParse) (tc : ToolCall) : Nat :=
  let base := tokensPerToolCall + c.countTokens tc.type
  if tc.type = "function" then
    let base := base + c.countTokens tc.function.name * 2
    match formatArguments jp tc.function.arguments with
    | none => base
    | some args => base + c.countTokens args
  else base

/-- `CountMessageTokens` (counter.go lines 130-175). -/
def CountMessageTokens (c : Counter) (jp : JParse) (message : ChatCompletionMessage) : Nat :=
  let count := c.countTokens message.role
  let count := count +
    (if message.role = "tool" then
      match jp message.content with
      | none => c.countTokens message.content
      | some contentJSON => c.countTokens (stringifyObject contentJSON true)
    else c.countTokens message.content)
  let count := message.toolCalls.foldl (fun acc tc => acc + toolCallTokens c jp tc) count
  let count :=
    if 0 < message.toolCalls.length ∧ message.content ≠ "" then count + 4 else count
  if message.name ≠ "" then count + c.countTokens message.name + tokensPerName
  else count

/-- `CountRequestTokens` (counter.go lines 43-98): 3 tokens of priming
overhead, tool insertion into the (possibly new) first system message, 3
tokens plus `CountMessageTokens` per message, and the flat multi-tool
correction when more than one message has role "tool".  The second
component is the caller-visible request after the call (see
`callerMessages`). -/
def CountRequestTokens (c : Counter) (jp : JParse) (req : ChatCompletionRequest) :
    Nat × ChatCompletionRequest :=
  let msgs := processedMessages req
  let count := 3
  let count := msgs.foldl (fun acc m => acc + tokensPerReqMessage + CountMessageTokens c jp m) count
  let toolMessages := msgs.countP (fun m => m.role == "tool")
  let count := if toolMessages > 1 then count + tokensForMultiTool else count
  (count, { req with messages := callerMessages req })

end V1

namespace V2

/-- One character of Go's `%q` (strconv.Quote) escaping: the double quote
and the backslash are backslash-escaped, the common control characters use
their letter escapes, and printable characters pass through.  (Go escapes
further non-printable characters with `\x`/`\u` forms; those classes are
not exercised by the material studied here.) -/
def goQuoteChar (ch : Char) : String :=
  if ch = Char.ofNat 34 then "\\\""
  else if ch = Char.ofNat 92 then "\\\\"
  else if ch = Char.ofNat 10 then "\\n"
  else if ch = Char.ofNat 9 then "\\t"
  else if ch = Char.ofNat 13 then "\\r"
  else String.singleton ch

/-- The escaped body of Go's `%q` rendering of a string (without the
surrounding double quotes). -/
def goQuoteCore (s : String) : String :=
  String.join (s.data.map goQuoteChar)

/-- Go's `%q` verb on a string: double-quoted with internal quotes (and
backslashes, and control characters) escaped. -/
def goQuote (s : String) : String :=
  "\"" ++ goQuoteCore s ++ "\""

/-- Combined embedding of the mutually recursive `formatValue`
(src/unnamed/part_002 lines 356-384), `stringifyObject` (lines 334-345) and
`formatField` (lines 347-353) of the part_002 revision, by cases on the
decoded JSON value:
* strings print with `%q` (escaped, double-quoted);
* numbers and booleans print with `%v` (their literal decimal/boolean
  text, unquoted);
* `nil` prints as literal `null`;
* `[]interface{}` prints its recursively rendered elements comma-joined in
  brackets;
* `map[string]interface{}` prints `\x7b\x7d` when empty and otherwise its
  fields comma-joined in braces, each field rendered as `"key":value` in
  quoted-key mode (`useQuotes = true`, key printed with `%q`) or
  `key:value` in unquoted-key mode.
(The Go `default:` case — a `json.Marshal` fallback — is unreachable for
values produced by `json.Unmarshal` into `interface{}` and has no
counterpart here.)  The `fuel` argument only bounds the recursion depth so
that the definition is structural; the wrappers below supply a fuel
exceeding the depth of the value, so the 0-fuel branch is never taken. -/
def renderValue : Nat → Jval → Bool → String
  | 0, _, _ => ""
  | fuel + 1, value, useQuotes =>
    match value with
    | .str s => goQuote s
    | .num r => r
    | .bool b => if b then "true" else "false"
    | .null => "null"
    | .arr elems =>
      "[" ++ String.intercalate "," (elems.map (fun e => renderValue fuel e useQuotes)) ++ "]"
    | .obj o =>
      if o.length = 0 then "\x7b\x7d"
      else
        "\x7b" ++ String.intercalate ","
          (o.map (fun kv =>
            (if useQuotes then goQuote kv.1 else kv.1) ++ ":" ++ renderValue fuel kv.2 useQuotes))
          ++ "\x7d"

/-- `formatValue` of the part_002 revision (lines 356-384). -/
def formatValue (value : Jval) (useQuotes : Bool) : String :=
  renderValue (jsizeV value + 1) value useQuotes

/-- `stringifyObject` of the part_002 revision (lines 334-345): an empty
object renders as `\x7b\x7d`, otherwise the comma-joined fields in braces. -/
def stringifyObject (jsonObject : List (String × Jval)) (useQuotes : Bool) : String :=
  renderValue (jsizeO jsonObject + 2) (.obj jsonObject) useQuotes

/-- `CountMessageTokens` of the part_002 revision (lines 137-175): tool
message content that parses as a JSON object is re-rendered in quoted-key
style, non-JSON tool content is wrapped as `"text": "<content>"` via `%q`;
each tool call contributes the tokens of
`"name":<%q name>, "arguments":<%q args>`. -/
def CountMessageTokens (c : Counter) (jp : JParse) (message : ChatCompletionMessage) : Nat :=
  let count := c.countTokens message.role
  let count := count +
    (if message.role = "tool" then
      match jp message.content with
      | none => c.countTokens ("\"text\": " ++ goQuote message.content)
      | some contentJSON => c.countTokens (stringifyObject contentJSON true)
    else c.countTokens message.content)
  let count := message.toolCalls.foldl (fun acc tc =>
    acc + c.countTokens
      ("\"name\":" ++ goQuote tc.function.name ++ ", \"arguments\":" ++ goQuote tc.function.arguments)) count
  if message.name ≠ "" then count + c.countTokens message.name + tokensPerName
  else count

/-- `countToolChoice` of the part_002 revision (lines 104-114): an
`openai.ToolChoice` value renders the fixed fragment
`\x7b`, newline, one space, `"name": "<function name>"`, newline, `\x7d`
and contributes its token count; any other dynamic type contributes 0. -/
def countToolChoice (c : Counter) (toolChoice : ToolChoiceVal) : Nat :=
  match toolChoice with
  | .toolChoice _ name => c.countTokens ("\x7b\n \"name\": \"" ++ name ++ "\"\n\x7d")
  | .other => 0

/-- `CountRequestTokens` of the part_002 revision (lines 42-102): as in
counter.go, plus the tool-choice contribution when `req.ToolChoice` is
non-nil. -/
def CountRequestTokens (c : Counter) (jp : JParse) (req : ChatCompletionRequest) :
    Nat × ChatCompletionRequest :=
  let msgs := processedMessages req
  let count := 3
  let count := msgs.foldl (fun acc m => acc + tokensPerReqMessage + CountMessageTokens c jp m) count
  let toolMessages := msgs.countP (fun m => m.role == "tool")
  let count := if toolMessages > 1 then count + tokensForMultiTool else count
  let count :=
    match req.toolChoice with
    | some t => count + countToolChoice c t
    | none => count
  (count, { req with messages := callerMessages req })

/-- `CountResponseTokens` of the part_002 revision (lines 117-132): per
choice, the message's tokens minus the tokens of its role. -/
def CountResponseTokens (c : Counter) (jp : JParse) (resp : ChatCompletionResponse) : Int :=
  resp.choices.foldl
    (fun acc choice =>
      acc + (CountMessageTokens c jp choice.message : Int)
        - (c.countTokens choice.message.role : Int)) 0

end V2

/-! Concrete fixtures used by the counterexample/bug-witness theorems. -/

/-- A concrete tokenizer instance whose token count is the character count;
an admissible instance of the tokenizer contract (deterministic
text-to-count function). -/
def cLen : Counter := { model := "gpt-4", countTokens := fun s => s.length }

/-- A JSON-parse collaborator under which no string parses as an object
(no fixture below feeds JSON content anywhere). -/
def jpNone : JParse := fun _ => none

/-- A tool with no parameter properties (renders as a zero-argument
TypeScript function type). -/
def pingTool : Tool :=
  { type := "function", function := { name := "ping" } }

/-- A request with one system message and one tool. -/
def req1 : ChatCompletionRequest :=
  { messages := [{ role := "system", content := "You are helpful." }],
    tools := [pingTool] }

/-- Occurrences of the three-character pattern comma, newline, letter u in a
character list. -/
def commaNlU : List Char → Nat
  | c1 :: c2 :: c3 :: rest =>
    (if c1 = Char.ofNat 44 ∧ c2 = Char.ofNat 10 ∧ c3 = Char.ofNat 117 then 1 else 0)
      + commaNlU (c2 :: c3 :: rest)
  | _ => 0

/-- A concrete tokenizer instance that is sensitive to the order in which
schema properties are rendered: it counts occurrences of the pattern
comma-newline-u.  Again an admissible instance of the tokenizer contract. -/
def cOrder : Counter := { model := "gpt-4", countTokens := fun s => commaNlU s.data }

/-- The schema node of a string-typed property named location. -/
def locProp : String × Jval := ("location", Jval.obj [("type", Jval.str "string")])

/-- The schema node of a string-typed property named unit. -/
def unitProp : String × Jval := ("unit", Jval.obj [("type", Jval.str "string")])

/-- The decoded parameter schema of the weather tool, with its properties
map presented in the given incidental iteration order. -/
def weatherParams (props : List (String × Jval)) : Jval :=
  Jval.obj [("type", Jval.str "object"), ("properties", Jval.obj props),
            ("required", Jval.arr [Jval.str "location"])]

/-- The weather tool, parameterised by the incidental iteration order of
its properties map. -/
def weatherTool (props : List (String × Jval)) : Tool :=
  { type := "function",
    function := { name := "get_current_weather", parameters := weatherParams props } }

/-- A request containing only the weather tool, properties presented in the
order location, unit. -/
def reqOrderA : ChatCompletionRequest :=
  { messages := [], tools := [weatherTool [locProp, unitProp]] }

/-- The same request in a run whose map iteration order presented the same
properties as unit, location. -/
def reqOrderB : ChatCompletionRequest :=
  { messages := [], tools := [weatherTool [unitProp, locProp]] }

/-- A JSON-schema node of type object with one string-typed property. -/
def nestedObjNode : List (String × Jval) :=
  [("type", Jval.str "object"),
   ("properties", Jval.obj [("location", Jval.obj [("type", Jval.str "string")])])]

/-- A function-typed tool call whose raw arguments do not parse as JSON
under the ambient parse collaborator. -/
def tcFn : ToolCall :=
  { id := "call_1", type := "function",
    function := { name := "get_current_weather", arguments := "not json" } }

/-- A tool call whose type is not "function". -/
def tcCustom : ToolCall :=
  { id := "call_2", type := "custom",
    function := { name := "get_current_weather", arguments := "\x7b\x7d" } }

/-- A plain assistant message. -/
def msgA : ChatCompletionMessage :=
  { role := "assistant", content := "I can help with that." }

set_option maxRecDepth 100000

/-! Helper lemmas. -/

/-- Folding an accumulation loop equals the initial value plus the sum of
the per-message contributions. -/
theorem foldl_msg_eq_sum (c : Counter) (jp : JParse) :
    ∀ (l : List ChatCompletionMessage) (n : Nat),
      l.foldl (fun acc m => acc + tokensPerReqMessage + V1.CountMessageTokens c jp m) n
        = n + (l.map (fun m => tokensPerReqMessage + V1.CountMessageTokens c jp m)).sum := by
  intro l
  induction l with
  | nil => intro n; simp
  | cons a t ih =>
    intro n
    simp only [List.foldl_cons, List.map_cons, List.sum_cons]
    rw [ih]
    omega

/-- Folding the tool-call loop equals the initial value plus the sum of the
per-call contributions. -/
theorem foldl_tct_eq_sum (c : Counter) (jp : JParse) :
    ∀ (l : List ToolCall) (n : Nat),
      l.foldl (fun acc tc => acc + V1.toolCallTokens c jp tc) n
        = n + (l.map (V1.toolCallTokens c jp)).sum := by
  intro l
  induction l with
  | nil => intro n; simp
  | cons a t ih =>
    intro n
    simp only [List.foldl_cons, List.map_cons, List.sum_cons]
    rw [ih]
    omega

/-- Folding the response loop equals the sum of the per-choice
contributions. -/
theorem foldl_resp_eq_sum (c : Counter) (jp : JParse) :
    ∀ (l : List ChatCompletionChoice) (n : Int),
      l.foldl (fun acc choice =>
          acc + (V2.CountMessageTokens c jp choice.message : Int)
            - (c.countTokens choice.message.role : Int)) n
        = n + (l.map (fun choice =>
            (V2.CountMessageTokens c jp choice.message : Int)
              - (c.countTokens choice.message.role : Int))).sum := by
  intro l
  induction l with
  | nil => intro n; simp
  | cons a t ih =>
    intro n
    simp only [List.foldl_cons, List.map_cons, List.sum_cons]
    rw [ih]
    ring

/-- Splicing the tool block into the first system message changes only that
message's content, so the number of tool-role messages is unchanged. -/
theorem injectSystem_toolCount (tb : String) :
    ∀ (msgs msgs2 : List ChatCompletionMessage), injectSystem tb msgs = some msgs2 →
      msgs2.countP (fun m => m.role == "tool") = msgs.countP (fun m => m.role == "tool") := by
  intro msgs
  induction msgs with
  | nil => intro msgs2 h; exact Option.noConfusion h
  | cons m rest ih =>
    intro msgs2 h
    by_cases hm : m.role = "system"
    · simp only [injectSystem, if_pos hm, Option.some.injEq] at h
      rw [← h]
      simp [List.countP_cons]
    · simp only [injectSystem, if_neg hm] at h
      cases hrec : injectSystem tb rest with
      | none => rw [hrec] at h; simp at h
      | some r2 =>
        rw [hrec] at h
        simp only [Option.map_some', Option.some.injEq] at h
        rw [← h]
        simp [List.countP_cons, ih r2 hrec]

/-- The tool-insertion step of `CountRequestTokens` never changes the number
of tool-role messages: it either rewrites a system message's content or
prepends a fresh system message. -/
theorem processed_toolCount (req : ChatCompletionRequest) :
    (processedMessages req).countP (fun m => m.role == "tool")
      = req.messages.countP (fun m => m.role == "tool") := by
  unfold processedMessages
  split
  · cases hinj : injectSystem (formatFunctionDefinitions req.tools) req.messages with
    | none => simp [List.countP_cons]
    | some msgs => exact injectSystem_toolCount _ _ _ hinj
  · rfl

/-! Claim theorems. -/

/-- C1: the claim that `CountRequestTokens` never mutates its input and
that two calls on the same request return the same integer FAILS on the
code: with tools present and a system message in the request, line 60 of
counter.go writes the tool block into the caller's message slice through
the shared backing array, so the caller's system-message content changes,
and a second call on the same (now mutated) request value returns a larger
count.  Evaluated here on a concrete request with one system message and
one tool, under the character-count tokenizer instance. -/
theorem c1_countRequest_mutates_input :
    (V1.CountRequestTokens cLen jpNone req1).2.messages.map (fun m => m.content)
        ≠ req1.messages.map (fun m => m.content)
    ∧ (V1.CountRequestTokens cLen jpNone (V1.CountRequestTokens cLen jpNone req1).2).1
        ≠ (V1.CountRequestTokens cLen jpNone req1).1 := by
  decide

/-- C2: `CountRequestTokens` adds the flat 13-token multi-tool correction
exactly once, exactly when the request's message list contains two or more
messages with role "tool" (the tool-insertion step never changes that
count), and adds nothing for zero or one tool message. -/
theorem c2_multiTool_correction (c : Counter) (jp : JParse) (req : ChatCompletionRequest) :
    (V1.CountRequestTokens c jp req).1
      = 3 + ((processedMessages req).map
            (fun m => tokensPerReqMessage + V1.CountMessageTokens c jp m)).sum
        + (if 2 ≤ req.messages.countP (fun m => m.role == "tool") then 13 else 0) := by
  simp only [V1.CountRequestTokens]
  rw [foldl_msg_eq_sum, processed_toolCount]
  by_cases h : 2 ≤ req.messages.countP (fun m => m.role == "tool")
  · rw [if_pos (by omega : req.messages.countP (fun m => m.role == "tool") > 1), if_pos h]
    simp [tokensForMultiTool]
  · rw [if_neg (by omega : ¬ req.messages.countP (fun m => m.role == "tool") > 1), if_neg h]
    omega

/-- C3: `CountResponseTokens` (src/unnamed/part_002, the revision whose
response counting the specification describes) returns exactly the sum,
over the response's choices, of the message's token count minus the token
count of its role — nothing else is added or subtracted. -/
theorem c3_countResponse_sum (c : Counter) (jp : JParse) (resp : ChatCompletionResponse) :
    V2.CountResponseTokens c jp resp
      = (resp.choices.map (fun choice =>
          (V2.CountMessageTokens c jp choice.message : Int)
            - (c.countTokens choice.message.role : Int))).sum := by
  unfold V2.CountResponseTokens
  rw [foldl_resp_eq_sum]
  ring

/-- C5: the claim that the rendering of schema properties does not depend on
incidental map iteration order FAILS on the code: `formatObjectProperties`
iterates the decoded properties map in the order the Go runtime happens to
choose.  Here two runs present the same two-property map in the two possible
orders (a permutation, first conjunct) and `CountRequestTokens` returns two
different integers for the same request under an order-sensitive tokenizer
instance. -/
theorem c5_mapIterationOrder :
    List.Perm [locProp, unitProp] [unitProp, locProp]
    ∧ (V1.CountRequestTokens cOrder jpNone reqOrderA).1
        ≠ (V1.CountRequestTokens cOrder jpNone reqOrderB).1 :=
  ⟨List.Perm.swap unitProp locProp [], by decide⟩

/-- C6: in the part_002 value renderer (the revision whose scalar rendering
the specification describes), scalar JSON values render identically in the
quoted-key and unquoted-key modes: strings double-quoted with internal
quotes escaped (witnessed concretely on a string containing a quote),
numbers and booleans as their literal decimal/boolean text, and null as
the literal text null. -/
theorem c6_scalar_rendering (useQuotes : Bool) (s r : String) :
    V2.formatValue (Jval.str s) useQuotes = "\"" ++ V2.goQuoteCore s ++ "\""
    ∧ V2.formatValue (Jval.num r) useQuotes = r
    ∧ V2.formatValue (Jval.bool true) useQuotes = "true"
    ∧ V2.formatValue (Jval.bool false) useQuotes = "false"
    ∧ V2.formatValue Jval.null useQuotes = "null"
    ∧ V2.goQuoteCore "in\"side" = "in\\\"side" :=
  ⟨rfl, rfl, rfl, rfl, rfl, by decide⟩

/-- C7: the claim that an object-typed schema node with a non-empty
properties map renders its recursively rendered property list between the
braces FAILS on the code: `formatType` passes the properties map itself —
not the schema node — to `formatObjectProperties`, which immediately looks
up a "properties" key in it, so the property list is dropped.  On a
concrete object node with one string property the code renders an empty
body, while `formatObjectProperties` applied to the node itself at
indent + 2 (what the claim describes) renders the property line. -/
theorem c7_nested_object_drops_properties :
    formatType nestedObjNode 0 = "\x7b\n\n\x7d"
    ∧ formatObjectProperties nestedObjNode 2 = "  location?:string,"
    ∧ formatType nestedObjNode 0
        ≠ "\x7b\n" ++ formatObjectProperties nestedObjNode 2 ++ "\n\x7d" := by
  decide

/-- C8: in the part_002 revision (the one implementing tool choice), a
request whose tool choice is an `openai.ToolChoice` value is counted as the
same request without a tool choice plus the tokens of the fixed fragment:
open brace, newline, one space, quoted key "name", colon, space, the quoted
function name, newline, close brace. -/
theorem c8_toolChoice_fragment (c : Counter) (jp : JParse) (req : ChatCompletionRequest)
    (ty fname : String) :
    (V2.CountRequestTokens c jp { req with toolChoice := some (.toolChoice ty fname) }).1
      = (V2.CountRequestTokens c jp { req with toolChoice := none }).1
        + c.countTokens ("\x7b\n \"name\": \"" ++ fname ++ "\"\n\x7d") :=
  rfl

/-- C4: for a tool call of type "function", the per-call contribution inside
`CountMessageTokens` is exactly 4 (fixed overhead) plus the tokens of the
call's type plus twice the tokens of the function name, plus — exactly when
the raw arguments parse as a JSON object — the tokens of the unquoted-key
rendering of that object; a parse failure silently skips only the argument
text while the overhead and name tokens are still counted, and counting
still succeeds (`toolCallTokens` is total). -/
theorem c4_functionCall_contribution (c : Counter) (jp : JParse) (tc : ToolCall)
    (h : tc.type = "function") :
    V1.toolCallTokens c jp tc
      = 4 + c.countTokens tc.type + c.countTokens tc.function.name * 2
        + (match V1.formatArguments jp tc.function.arguments with
           | none => 0
           | some args => c.countTokens args)
    ∧ (∀ o, jp tc.function.arguments = some o → o.length ≠ 0 →
        V1.formatArguments jp tc.function.arguments = some (V1.stringifyObject o false))
    ∧ (jp tc.function.arguments = none →
        V1.formatArguments jp tc.function.arguments = none) := by
  refine ⟨?_, ?_, ?_⟩
  · simp only [V1.toolCallTokens, if_pos h, tokensPerToolCall]
    cases hfa : V1.formatArguments jp tc.function.arguments with
    | none => simp
    | some args => simp
  · intro o ho hne
    simp only [V1.formatArguments, ho, if_neg hne]
  · intro h0
    simp only [V1.formatArguments, h0]

/-- C4 witness: the theorem applied to a concrete function-typed tool call
whose arguments fail to parse under the concrete parse collaborator. -/
theorem c4_witness :
    tcFn.type = "function"
    ∧ (V1.toolCallTokens cLen jpNone tcFn
        = 4 + cLen.countTokens tcFn.type + cLen.countTokens tcFn.function.name * 2
          + (match V1.formatArguments jpNone tcFn.function.arguments with
             | none => 0
             | some args => cLen.countTokens args)
      ∧ (∀ o, jpNone tcFn.function.arguments = some o → o.length ≠ 0 →
          V1.formatArguments jpNone tcFn.function.arguments
            = some (V1.stringifyObject o false))
      ∧ (jpNone tcFn.function.arguments = none →
          V1.formatArguments jpNone tcFn.function.arguments = none)) :=
  ⟨rfl, c4_functionCall_contribution cLen jpNone tcFn rfl⟩

/-- C9: appending or inserting any tool call into a message's tool-call
sequence never decreases `CountMessageTokens`: every per-call contribution
is non-negative and the both-content-and-tools correction can only switch
on.  In particular this covers adding a non-empty tool call. -/
theorem c9_toolCall_monotone (c : Counter) (jp : JParse) (m : ChatCompletionMessage)
    (tc : ToolCall) (pre post : List ToolCall) :
    V1.CountMessageTokens c jp { m with toolCalls := pre ++ post }
      ≤ V1.CountMessageTokens c jp { m with toolCalls := pre ++ tc :: post } := by
  simp only [V1.CountMessageTokens]
  rw [foldl_tct_eq_sum, foldl_tct_eq_sum]
  simp only [List.map_append, List.map_cons, List.sum_append, List.sum_cons,
    List.length_append, List.length_cons]
  by_cases hc : m.content = ""
  · simp only [hc, ne_eq, not_true_eq_false, and_false, if_false]
    split <;> omega
  · simp only [ne_eq, hc, not_false_eq_true, and_true]
    split_ifs <;> omega

/-- C10: a tool call whose type is not "function" contributes exactly 4
plus the tokens of its type to `CountMessageTokens`; its function name and
its arguments contribute nothing (replacing them leaves the message count
unchanged). -/
theorem c10_nonFunction_toolCall (c : Counter) (jp : JParse) (m : ChatCompletionMessage)
    (pre post : List ToolCall) (tc : ToolCall) (fname args2 : String)
    (h : tc.type ≠ "function") :
    V1.toolCallTokens c jp tc = 4 + c.countTokens tc.type
    ∧ V1.CountMessageTokens c jp { m with toolCalls := pre ++ tc :: post }
        = V1.CountMessageTokens c jp
            { m with toolCalls :=
                pre ++ { tc with function := { name := fname, arguments := args2 } } :: post } := by
  have he : V1.toolCallTokens c jp tc
      = V1.toolCallTokens c jp { tc with function := { name := fname, arguments := args2 } } := by
    simp only [V1.toolCallTokens]
    rw [if_neg h, if_neg h]
  refine ⟨?_, ?_⟩
  · simp only [V1.toolCallTokens, if_neg h, tokensPerToolCall]
  · simp only [V1.CountMessageTokens]
    rw [foldl_tct_eq_sum, foldl_tct_eq_sum]
    simp only [List.map_append, List.map_cons, List.sum_append, List.sum_cons,
      List.length_append, List.length_cons, ← he]

/-- C10 witness: the theorem applied to a concrete tool call of type
"custom" inside a concrete assistant message. -/
theorem c10_witness :
    tcCustom.type ≠ "function"
    ∧ (V1.toolCallTokens cLen jpNone tcCustom = 4 + cLen.countTokens tcCustom.type
      ∧ V1.CountMessageTokens cLen jpNone { msgA with toolCalls := [] ++ tcCustom :: [] }
          = V1.CountMessageTokens cLen jpNone
              { msgA with toolCalls :=
                  [] ++ { tcCustom with function := { name := "x", arguments := "y" } } :: [] }) :=
  ⟨by decide, c10_nonFunction_toolCall cLen jpNone msgA [] [] tcCustom "x" "y" (by decide)⟩
